import Mathlib

/-!
Verification development for the Mnemosyne personal-memory store
(`src/database.js`, `src/utils.js`).  The JavaScript data-access layer is
shallowly embedded: each method of `MemoryDatabase` becomes a pure Lean
function on an explicit `State`, SQL row sets become lists of row
structures, string-valued SQLite comparisons become lexicographic
comparisons on the stored text, and JavaScript exceptions become
`Except String`.

Modelling conventions, each noted again at the definition it concerns:
* SQLite TEXT comparison (BINARY collation) is byte order of the UTF-8
  encoding, which coincides with code-point order; it is modelled by a
  lexicographic comparison on the character list.
* SQLite `LIKE` is case-insensitive on ASCII letters; the patterns the
  code builds are modelled at their call sites (they contain either no
  letters, or the code lowercases both sides first).
* `JSON.stringify`/`JSON.parse` round-trips of attribute/metadata objects
  are modelled by keeping the canonical serialized text; integer-id arrays
  are parsed structurally.
* JavaScript `String.prototype.toLowerCase`, `trim` and regular
  expressions are modelled on the ASCII fragment the theorems use; a
  quantifier with nothing to repeat (as in the pattern "c++") is a
  `SyntaxError`, and patterns free of regex special characters match
  literally, `match(re, g)` counting non-overlapping occurrences.
* `new Date(year, month, day)` (local time, fixed UTC offset `tz` in
  minutes, no DST) maps years 0–99 to 1900–1999 and normalizes month
  overflow; `Date.prototype.toISOString` is implemented for years 0–9999.
-/

namespace Mnemosyne

/-! ### ASCII string primitives -/

/-- Lowercase one ASCII character, the ASCII fragment of the JavaScript
`String.prototype.toLowerCase` used by the keyword searches. -/
def asciiCharLower (c : Char) : Char :=
  if 'A' ≤ c ∧ c ≤ 'Z' then Char.ofNat (c.toNat + 32) else c

/-- ASCII fragment of `String.prototype.toLowerCase`. -/
def asciiLower (s : String) : String := ⟨s.data.map asciiCharLower⟩

/-- ASCII whitespace recognised by the model of `String.prototype.trim`. -/
def isWsChar (c : Char) : Bool :=
  c = ' ' || c = '\t' || c = '\n' || c = '\r' || c = '\x0b' || c = '\x0c'

/-- Strip leading and trailing whitespace from a character list. -/
def trimCharsL (l : List Char) : List Char :=
  ((l.dropWhile isWsChar).reverse.dropWhile isWsChar).reverse

/-- ASCII fragment of the JavaScript `String.prototype.trim`. -/
def jsTrim (s : String) : String := ⟨trimCharsL s.data⟩

/-- Does `needle` occur as a contiguous run inside `hay`?  Model of
`String.prototype.includes` and of a SQLite pattern match against
a pattern bracketed by percent wildcards. -/
def containsL (needle : List Char) : List Char → Bool
  | [] => needle.isEmpty
  | c :: rest => needle.isPrefixOf (c :: rest) || containsL needle rest

/-- `containsS hay pat`: `pat` occurs as a substring of `hay`. -/
def containsS (hay pat : String) : Bool := containsL pat.data hay.data

/-- Scan of `countOccL`: structural on `hay`, with `skip` characters
still to pass over after a match. -/
def countOccA (needle : List Char) : List Char → Nat → Nat
  | [], _ => 0
  | c :: rest, skip =>
    if skip ≠ 0 then countOccA needle rest (skip - 1)
    else if needle.isPrefixOf (c :: rest) then
      1 + countOccA needle rest (needle.length - 1)
    else countOccA needle rest 0

/-- Number of non-overlapping occurrences of `needle` in `hay`, scanning
left to right — the count produced by matching a global literal regular
expression. -/
def countOccL (needle hay : List Char) : Nat :=
  if needle.isEmpty then 0 else countOccA needle hay 0

/-- `countOccS hay pat`: non-overlapping occurrences of `pat` in `hay`. -/
def countOccS (hay pat : String) : Nat := countOccL pat.data hay.data

/-- Lexicographic comparison of character lists by code point; UTF-8 byte
order coincides with it, so this models the SQLite BINARY collation used
on the stored TEXT timestamps. -/
def charListLeB : List Char → List Char → Bool
  | [], _ => true
  | _ :: _, [] => false
  | a :: as, b :: bs =>
    if a.val < b.val then true
    else if b.val < a.val then false
    else charListLeB as bs

/-- `strLeB a b`: `a` is at most `b` in SQLite TEXT order. -/
def strLeB (a b : String) : Bool := charListLeB a.data b.data

/-- Strict version of `strLeB`. -/
def strLtB (a b : String) : Bool := strLeB a b && !(a == b)

/-! ### The modelled fragment of ECMAScript regular expressions

The searches build `new RegExp(kw, g)` from a raw keyword.  On the
fragment the theorems use this is: a keyword with a quantifier that has
nothing to repeat (a `+`, `*` or `?` at the start, or a `+`/`*` directly
after a quantifier, or any quantifier after a lazy-quantifier suffix) is a
`SyntaxError`; a keyword free of regex special characters matches
literally.  Theorems about successful searches restrict keywords to the
literal fragment through `literalStr` hypotheses. -/

/-- Quantifier characters of the modelled regex fragment. -/
def isQuantChar (c : Char) : Bool := c = '+' || c = '*' || c = '?'

/-- Regex special characters: keywords free of them match literally. -/
def isRegexSpecialChar (c : Char) : Bool :=
  isQuantChar c || c = '.' || c = '(' || c = ')' || c = '[' || c = ']' ||
  c = '\\' || c = '|' || c = '^' || c = '$' || c = '\x7b' || c = '\x7d'

/-- A string that an ECMAScript regular expression treats as a literal. -/
def literalStr (s : String) : Bool := s.data.all (fun c => !isRegexSpecialChar c)

/-- Scan for a quantifier with nothing to repeat.  State `1`: after an
atom; state `2`: after a quantifier (exactly one lazy `?` may follow);
state `3`: after a lazy `?`; any other state: a quantifier is an error. -/
def badQuantAux : Nat → List Char → Bool
  | _, [] => false
  | st, c :: rest =>
    if isQuantChar c then
      if st = 1 then badQuantAux 2 rest
      else if st = 2 && c = '?' then badQuantAux 3 rest
      else true
    else badQuantAux 1 rest

/-- Does compiling the pattern raise `Nothing to repeat`?
(`regexBadQuant "c++" = true`, as in V8.) -/
def regexBadQuant (s : String) : Bool := badQuantAux 0 s.data

/-- Model of `(text.match(new RegExp(pat, g)) || []).length` on the
fragment described above: a bad quantifier is a thrown `SyntaxError`,
and a literal pattern is counted by `countOccS`. -/
def jsRegexCountG (pat text : String) : Except String Nat :=
  if regexBadQuant pat then
    .error ("Invalid regular expression: /" ++ pat ++ "/: Nothing to repeat")
  else
    .ok (countOccS text pat)

/-! ### Civil-calendar time and `Date.prototype.toISOString`

Days-from-civil and civil-from-days follow the standard proleptic
Gregorian conversion used by JavaScript dates; all divisions are floor
divisions (`Int.fdiv`). -/

/-- Days since 1970-01-01 of the civil date `y-m-d` (`m` is 1-based). -/
def daysFromCivil (y m d : Int) : Int :=
  let y2 := y - (if m ≤ 2 then 1 else 0)
  let era := Int.fdiv y2 400
  let yoe := y2 - era * 400
  let mp := Int.fmod (m + 9) 12
  let doy := Int.fdiv (153 * mp + 2) 5 + d - 1
  let doe := yoe * 365 + Int.fdiv yoe 4 - Int.fdiv yoe 100 + doy
  era * 146097 + doe - 719468

/-- Civil date `(y, m, d)` of a day count since 1970-01-01. -/
def civilFromDays (z0 : Int) : Int × Int × Int :=
  let z := z0 + 719468
  let era := Int.fdiv z 146097
  let doe := z - era * 146097
  let yoe :=
    Int.fdiv (doe - Int.fdiv doe 1460 + Int.fdiv doe 36524 - Int.fdiv doe 146096) 365
  let y := yoe + era * 400
  let doy := doe - (365 * yoe + Int.fdiv yoe 4 - Int.fdiv yoe 100)
  let mp := Int.fdiv (5 * doy + 2) 153
  let d := doy - Int.fdiv (153 * mp + 2) 5 + 1
  let m := mp + (if mp < 10 then 3 else -9)
  (y + (if m ≤ 2 then 1 else 0), m, d)

/-- Left-pad a decimal string with zeros to width `w`. -/
def zeroPad (w : Nat) (s : String) : String :=
  String.mk (List.replicate (w - s.length) '0') ++ s

/-- `Date.prototype.toISOString` for an epoch-millisecond instant whose
year falls in 0–9999 (the only years the theorems touch). -/
def msToIso (ms : Int) : String :=
  let days := Int.fdiv ms 86400000
  let rem := Int.fmod ms 86400000
  let c := civilFromDays days
  let h := Int.fdiv rem 3600000
  let mi := Int.fmod (Int.fdiv rem 60000) 60
  let sec := Int.fmod (Int.fdiv rem 1000) 60
  let msec := Int.fmod rem 1000
  zeroPad 4 (toString c.1.toNat) ++ "-" ++ zeroPad 2 (toString c.2.1.toNat) ++ "-" ++
    zeroPad 2 (toString c.2.2.toNat) ++ "T" ++ zeroPad 2 (toString h.toNat) ++ ":" ++
    zeroPad 2 (toString mi.toNat) ++ ":" ++ zeroPad 2 (toString sec.toNat) ++ "." ++
    zeroPad 3 (toString msec.toNat) ++ "Z"

/-- The year/month normalization performed by `new Date(year, monthIndex, day)`:
years 0–99 are read as 1900–1999, and the 0-based month index rolls over
into the year.  Returns the normalized `(year, monthIndex)`. -/
def jsDateNormYM (y mIdx : Int) : Int × Int :=
  let ya := if 0 ≤ y ∧ y ≤ 99 then y + 1900 else y
  (ya + Int.fdiv mIdx 12, Int.fmod mIdx 12)

/-- Epoch milliseconds of `new Date(y, mIdx, d)` evaluated at a fixed local
UTC offset of `tz` minutes (no DST in the model). -/
def mkJsDateMs (tz y mIdx d : Int) : Int :=
  let nm := jsDateNormYM y mIdx
  daysFromCivil nm.1 (nm.2 + 1) d * 86400000 - tz * 60000

/-- First instant of the civil month `y-m` (1-based, no JS normalization)
at local offset `tz` — the spec-side reading of "first instant of that
month". -/
def civilMonthStartMs (tz y m : Int) : Int :=
  daysFromCivil y m 1 * 86400000 - tz * 60000

/-! ### JSON helpers for integer-id arrays -/

/-- `JSON.stringify` of an integer array: no whitespace is emitted. -/
def jsonStringifyIntList (l : List Int) : String :=
  "[" ++ String.intercalate "," (l.map toString) ++ "]"

/-- Parse a decimal digit run. -/
def parseDigits (l : List Char) : Option Nat :=
  if l ≠ [] ∧ l.all Char.isDigit then
    some (l.foldl (fun a c => a * 10 + (c.toNat - 48)) 0)
  else none

/-- Parse an optionally signed decimal integer. -/
def parseIntChars (l : List Char) : Option Int :=
  match l with
  | '-' :: rest => (parseDigits rest).map (fun n => -(n : Int))
  | _ => (parseDigits l).map (fun n => (n : Int))

/-- Structural parse of a serialized integer array such as "[1,2,3]" —
the `JSON.parse` the result mapping applies to `related_entity_ids`. -/
def jsonParseIntList (s : String) : Option (List Int) :=
  match s.data with
  | '[' :: rest =>
    match rest.getLast? with
    | some ']' =>
      let inner := rest.dropLast
      if inner.isEmpty then some [] else (inner.splitOn ',').mapM parseIntChars
    | _ => none
  | _ => none

/-- Decimal value of a digit run (used after a digit-pattern guard). -/
def digitsVal (l : List Char) : Nat :=
  l.foldl (fun a c => a * 10 + (c.toNat - 48)) 0

/-- The test `timeRange.match(/^\d\x7b4\x7d-\d\x7b2\x7d$/)`: four digits,
a hyphen, two digits. -/
def matchYM (s : String) : Bool :=
  match s.data with
  | [a, b, c, d, e, f, g] =>
    a.isDigit && b.isDigit && c.isDigit && d.isDigit && e = '-' && f.isDigit && g.isDigit
  | _ => false

/-- The test `timeRange.match(/^\d\x7b4\x7d$/)`: exactly four digits. -/
def matchY (s : String) : Bool :=
  match s.data with
  | [a, b, c, d] => a.isDigit && b.isDigit && c.isDigit && d.isDigit
  | _ => false

/-- `_parseTimeRange(timeRange)` evaluated at the current instant `now`
(epoch ms) and local UTC offset `tz` (minutes): the three relative forms
are fixed-duration offsets ending now; `YYYY-MM` and `YYYY` construct
local `Date`s (`new Date(y, m-1, 1)` …), with the JS year/month
normalization of `mkJsDateMs`; anything else throws. -/
def parseTimeRange (now tz : Int) (timeRange : String) : Except String (Int × Int) :=
  if timeRange = "last_week" then .ok (now - 7 * 24 * 60 * 60 * 1000, now)
  else if timeRange = "last_month" then .ok (now - 30 * 24 * 60 * 60 * 1000, now)
  else if timeRange = "last_year" then .ok (now - 365 * 24 * 60 * 60 * 1000, now)
  else if matchYM timeRange then
    let year : Int := (digitsVal (timeRange.data.take 4) : Nat)
    let month : Int := (digitsVal (timeRange.data.drop 5) : Nat)
    .ok (mkJsDateMs tz year (month - 1) 1, mkJsDateMs tz year month 1)
  else if matchY timeRange then
    let year : Int := (digitsVal timeRange.data : Nat)
    .ok (mkJsDateMs tz year 0 1, mkJsDateMs tz (year + 1) 0 1)
  else .error ("Unsupported time range format: " ++ timeRange)

/-! ### Data model

One row structure per SQL table (`user_profile`, `entities`, `events`),
with the columns the operations read or write.  `deleted INTEGER DEFAULT 0`
is a `Bool`; REAL columns are `Rat`; nullable TEXT columns are
`Option String`.  `attributes` / `metadata` / `related_entity_ids` hold
the canonical serialized JSON text the code stores. -/

structure ProfileRow where
  user_id : String
  key : String
  value : String
  category : Option String
  updated_at : String
  confidence : Rat
  deleted : Bool
deriving DecidableEq, Repr

structure EntityRow where
  id : Nat
  user_id : String
  entity_type : String
  name : Option String
  attributes : Option String
  created_at : String
  updated_at : String
  status : String
  deleted : Bool
deriving DecidableEq, Repr

structure EventRow where
  id : Nat
  user_id : String
  event_type : String
  description : String
  timestamp : String
  related_entity_ids : Option String
  metadata : Option String
  importance : Rat
  deleted : Bool
deriving DecidableEq, Repr

/-- The database contents visible to one `MemoryDatabase` instance:
the three row sets in rowid order, the two AUTOINCREMENT counters, and
the instance's `userId`. -/
structure State where
  userId : String
  profiles : List ProfileRow
  entities : List EntityRow
  events : List EventRow
  nextEntityId : Nat
  nextEventId : Nat
deriving DecidableEq, Repr

/-- A freshly created store (`_createTables`): empty tables, ids from 1. -/
def initState (userId : String) : State :=
  { userId := userId, profiles := [], entities := [], events := [],
    nextEntityId := 1, nextEventId := 1 }

/-! ### Result records -/

structure ProfileUpdateResult where
  updated : Bool
  had_previous_value : Bool
  previous_value : Option String
deriving DecidableEq, Repr

structure DeleteResult where
  deleted : Bool
  changes : Nat
deriving DecidableEq, Repr

structure EntityUpdateResult where
  updated : Bool
  changes : Option Nat
  message : Option String
deriving DecidableEq, Repr

/-- Projection returned by `queryProfile`
(`SELECT key, value, category, updated_at, confidence`). -/
structure ProfileItem where
  key : String
  value : String
  category : Option String
  updated_at : String
  confidence : Rat
deriving DecidableEq, Repr

/-- Projection returned by `listEntities`; `attributes` stays the stored
serialized text (the JS parses it back into an object; the canonical text
represents that object in the model). -/
structure EntityItem where
  id : Nat
  entity_type : String
  name : Option String
  attributes : Option String
  created_at : String
  updated_at : String
  status : String
deriving DecidableEq, Repr

/-- Projection returned by the event queries; `related_entity_ids` is the
structurally parsed id array (`null` on parse failure, as in the JS),
`metadata` stays the stored serialized text. -/
structure EventItem where
  id : Nat
  event_type : String
  description : String
  related_entity_ids : Option (List Int)
  metadata : Option String
  timestamp : String
  importance : Rat
deriving DecidableEq, Repr

/-- A `searchProfileByKeywords` result: the profile projection spread
together with `relevance_score` and `matched_keywords`. -/
structure ProfileScored where
  item : ProfileItem
  relevance_score : Nat
  matched_keywords : List String
deriving DecidableEq, Repr

/-- A `searchEntitiesByKeywords` result; `matchedName` / `matchedAttrs`
are the `matched_fields` breakdown. -/
structure EntityScored where
  item : EntityItem
  relevance_score : Nat
  matched_keywords : List String
  matchedName : Bool
  matchedAttrs : Bool
deriving DecidableEq, Repr

/-- A keyword-scored event result. -/
structure EventScored where
  item : EventItem
  relevance_score : Nat
  matched_keywords : List String
deriving DecidableEq, Repr

/-- `searchEvents` / `searchEventsByKeywords` output: the keyword path
returns scored records, every other path plain event records. -/
inductive EventsResult where
  | plain (items : List EventItem)
  | scored (items : List EventScored)
deriving DecidableEq, Repr

/-! ### Generic JS-pipeline helpers -/

/-- `Array.prototype.map` over a callback that may throw: the first
exception aborts the whole call. -/
def exMap (f : α → Except ε β) : List α → Except ε (List β)
  | [] => .ok []
  | a :: as =>
    match f a with
    | .error e => .error e
    | .ok b => (exMap f as).map (fun bs => b :: bs)

/-- Insert into a list sorted by the boolean comparison `le`. -/
def insertB (le : α → α → Bool) (a : α) : List α → List α
  | [] => [a]
  | b :: l => if le a b then a :: b :: l else b :: insertB le a l

/-- Insertion sort by the boolean comparison `le`; with a total reflexive
`le` this is a stable sort, matching `Array.prototype.sort` and the
deterministic order the model fixes for SQL `ORDER BY`. -/
def sortB (le : α → α → Bool) : List α → List α
  | [] => []
  | a :: l => insertB le a (sortB le l)

/-- Truthiness of a nullable string argument (`null` and the empty string
are falsy). -/
def jsTruthy : Option String → Bool
  | none => false
  | some s => s ≠ ""

/-! ### Row projections -/

def profileRowToItem (r : ProfileRow) : ProfileItem :=
  { key := r.key, value := r.value, category := r.category,
    updated_at := r.updated_at, confidence := r.confidence }

def entityRowToItem (r : EntityRow) : EntityItem :=
  { id := r.id, entity_type := r.entity_type, name := r.name,
    attributes := r.attributes, created_at := r.created_at,
    updated_at := r.updated_at, status := r.status }

def eventRowToItem (r : EventRow) : EventItem :=
  { id := r.id, event_type := r.event_type, description := r.description,
    related_entity_ids :=
      match r.related_entity_ids with
      | some t => jsonParseIntList t
      | none => none,
    metadata := r.metadata, timestamp := r.timestamp, importance := r.importance }

/-! ### Attribute operations (`user_profile` table) -/

/-- `updateProfile(key, value, category)`: read the previous value (no
`deleted` filter in the `SELECT`), then
`INSERT ... ON CONFLICT(user_id, key) DO UPDATE SET value, category =
COALESCE(excluded.category, category), updated_at`. -/
def updateProfile (s : State) (key value : String) (category : Option String)
    (now : String) : State × ProfileUpdateResult :=
  let oldRow := s.profiles.find? (fun r => r.user_id == s.userId && r.key == key)
  let newProfiles :=
    match oldRow with
    | some _ =>
      s.profiles.map (fun r =>
        if r.user_id == s.userId && r.key == key then
          { r with value := value,
                   category := match category with
                               | some c => some c
                               | none => r.category,
                   updated_at := now }
        else r)
    | none =>
      s.profiles ++ [{ user_id := s.userId, key := key, value := value,
                       category := category, updated_at := now,
                       confidence := 1, deleted := false }]
  ({ s with profiles := newProfiles },
   { updated := true,
     had_previous_value := oldRow.isSome,
     previous_value := oldRow.map (fun r => r.value) })

/-- `queryProfile(keys, category)`: non-deleted rows of this user,
optionally restricted to a key set (`IN`) and a category (truthy guard on
both filters, as in the JS). -/
def queryProfile (s : State) (keys : Option (List String))
    (category : Option String) : List ProfileItem :=
  (s.profiles.filter (fun r =>
    r.user_id == s.userId && !r.deleted &&
    (match keys with
     | some l => if l.isEmpty then true else l.contains r.key
     | none => true) &&
    (match category with
     | some c => if c = "" then true else r.category == some c
     | none => true))).map profileRowToItem

/-- `deleteProfile(key)`: count the non-deleted row, then
`UPDATE ... SET deleted = 1, updated_at = CURRENT_TIMESTAMP`. -/
def deleteProfile (s : State) (key : String) (now : String) : State × DeleteResult :=
  let cnt := (s.profiles.filter (fun r =>
    r.user_id == s.userId && r.key == key && !r.deleted)).length
  let newProfiles := s.profiles.map (fun r =>
    if r.user_id == s.userId && r.key == key then
      { r with deleted := true, updated_at := now }
    else r)
  ({ s with profiles := newProfiles },
   { deleted := decide (0 < cnt), changes := cnt })

/-! ### Entity operations -/

/-- `isValidEntityType` from `utils.js` — exported but never called by
`createEntity` or any other store operation. -/
def isValidEntityType (t : String) : Bool :=
  ["pet", "property", "vehicle", "person"].contains t

/-- `createEntity(entityType, name, attributes)`: unconditional
`INSERT`; returns `last_insert_rowid()`.  No validation of
`entityType` occurs. -/
def createEntity (s : State) (entityType : String) (name attributes : Option String)
    (now : String) : State × Nat :=
  let row : EntityRow :=
    { id := s.nextEntityId, user_id := s.userId, entity_type := entityType,
      name := name, attributes := attributes, created_at := now,
      updated_at := now, status := "active", deleted := false }
  ({ s with entities := s.entities ++ [row], nextEntityId := s.nextEntityId + 1 },
   s.nextEntityId)

/-- The patch `updateEntity` applies to a matching row: each supplied
field overwrites, `updated_at` is refreshed. -/
def entityPatch (name attributes status : Option String) (now : String)
    (r : EntityRow) : EntityRow :=
  { r with
    name := match name with | some n => some n | none => r.name,
    attributes := match attributes with | some a => some a | none => r.attributes,
    status := match status with | some st => st | none => r.status,
    updated_at := now }

/-- `updateEntity(entityId, name, attributes, status)`: early return when
no field is supplied; otherwise `SELECT COUNT(*) ... WHERE user_id AND id`
(no `deleted` filter) followed by the `UPDATE` (also without a `deleted`
filter). -/
def updateEntity (s : State) (entityId : Nat) (name attributes status : Option String)
    (now : String) : State × EntityUpdateResult :=
  if name.isNone && attributes.isNone && status.isNone then
    (s, { updated := false, changes := none, message := some "No fields to update" })
  else
    let cnt := (s.entities.filter (fun r =>
      r.user_id == s.userId && r.id == entityId)).length
    let newEntities := s.entities.map (fun r =>
      if r.user_id == s.userId && r.id == entityId then
        entityPatch name attributes status now r
      else r)
    ({ s with entities := newEntities },
     { updated := decide (0 < cnt), changes := some cnt, message := none })

/-- `listEntities(entityType, status)`:
`WHERE user_id = ? AND deleted = 0`, plus a type filter when truthy and a
status filter when truthy and not "all"; `ORDER BY created_at DESC`. -/
def listEntities (s : State) (entityType status : Option String) : List EntityItem :=
  let rows := s.entities.filter (fun r =>
    r.user_id == s.userId && !r.deleted &&
    (match entityType with
     | some t => if t = "" then true else r.entity_type == t
     | none => true) &&
    (match status with
     | some st => if st = "" || st = "all" then true else r.status == st
     | none => true))
  ((sortB (fun a b => strLeB b.created_at a.created_at) rows).map entityRowToItem)

/-- `deleteEntity(entityId)`: count the non-deleted row, then
`UPDATE entities SET deleted = 1, updated_at = CURRENT_TIMESTAMP
WHERE user_id = ? AND id = ?`.  The `status` column is not touched. -/
def deleteEntity (s : State) (entityId : Nat) (now : String) : State × DeleteResult :=
  let cnt := (s.entities.filter (fun r =>
    r.user_id == s.userId && r.id == entityId && !r.deleted)).length
  let newEntities := s.entities.map (fun r =>
    if r.user_id == s.userId && r.id == entityId then
      { r with deleted := true, updated_at := now }
    else r)
  ({ s with entities := newEntities },
   { deleted := decide (0 < cnt), changes := cnt })

/-! ### Event operations -/

/-- `addEvent(eventType, description, relatedEntityIds, metadata,
timestamp, importance)`: serializes the id array, defaults the timestamp
to `new Date().toISOString()` (the `nowIso` parameter; an empty supplied
timestamp is falsy and also defaults), inserts, returns
`last_insert_rowid()`. -/
def addEvent (s : State) (eventType description : String)
    (relatedEntityIds : Option (List Int)) (metadata : Option String)
    (timestamp : Option String) (importance : Rat) (nowIso : String) : State × Nat :=
  let relatedJson := relatedEntityIds.map jsonStringifyIntList
  let ts := match timestamp with
            | some t => if t = "" then nowIso else t
            | none => nowIso
  let row : EventRow :=
    { id := s.nextEventId, user_id := s.userId, event_type := eventType,
      description := description, timestamp := ts,
      related_entity_ids := relatedJson, metadata := metadata,
      importance := importance, deleted := false }
  ({ s with events := s.events ++ [row], nextEventId := s.nextEventId + 1 },
   s.nextEventId)

/-- The time-range condition `timestamp BETWEEN ? AND ?` bound to
`start.toISOString()` and `end.toISOString()`: SQL `BETWEEN` is inclusive
at both ends, and the TEXT comparison is lexicographic. -/
def tsBetween (rge : Option (Int × Int)) (ts : String) : Bool :=
  match rge with
  | some (a, b) => strLeB (msToIso a) ts && strLeB ts (msToIso b)
  | none => true

/-- The legacy condition `description LIKE ?` bound to the query wrapped
in percent wildcards.  SQLite LIKE is case-insensitive on ASCII, modelled
by lowercasing both sides; faithful for wildcard-free queries. -/
def likeContains (hay pat : String) : Bool :=
  containsS (asciiLower hay) (asciiLower pat)

/-- The optional `event_type = ?` filter (truthy guard). -/
def etCond (eventType : Option String) (r : EventRow) : Bool :=
  match eventType with
  | some t => if t = "" then true else r.event_type == t
  | none => true

/-- The optional legacy `description LIKE %query%` filter (truthy guard). -/
def queryCond (query : Option String) (r : EventRow) : Bool :=
  match query with
  | some q => if q = "" then true else likeContains r.description q
  | none => true

/-- Resolve the optional `timeRange` argument: a truthy value is parsed
(and a parse failure is a thrown error), a falsy one adds no filter. -/
def resolveRange (now tz : Int) (timeRange : Option String) :
    Except String (Option (Int × Int)) :=
  match timeRange with
  | some tr => if tr = "" then .ok none else (parseTimeRange now tz tr).map some
  | none => .ok none

/-- Rows selected by the legacy `searchEvents` SQL:
`WHERE user_id = ? AND deleted = 0` plus the optional query, event-type
and time-range filters. -/
def legacyRows (s : State) (query eventType : Option String)
    (rge : Option (Int × Int)) : List EventRow :=
  s.events.filter (fun r =>
    r.user_id == s.userId && !r.deleted && queryCond query r &&
    etCond eventType r && tsBetween rge r.timestamp)

/-- Rows selected by the `searchEventsByKeywords` SQL (same filters minus
the legacy query). -/
def kwBaseRows (s : State) (eventType : Option String)
    (rge : Option (Int × Int)) : List EventRow :=
  s.events.filter (fun r =>
    r.user_id == s.userId && !r.deleted && etCond eventType r &&
    tsBetween rge r.timestamp)

/-- `ORDER BY timestamp DESC` on event rows. -/
def sortEventsDesc (l : List EventRow) : List EventRow :=
  sortB (fun a b => strLeB b.timestamp a.timestamp) l

/-- Descending sort by `relevance_score` (the stable
`sort((a, b) => b.relevance_score - a.relevance_score)`). -/
def sortScoredEventsDesc (l : List EventScored) : List EventScored :=
  sortB (fun a b => Nat.ble b.relevance_score a.relevance_score) l

/-- The per-keyword scoring loop of `searchEventsByKeywords`: lowercased
trimmed keyword, skip when empty, description occurrences count double,
metadata occurrences count single; a keyword is matched when either field
scored.  Regular-expression construction happens only after the
`includes` gate, and may throw. -/
def eventScoreLoop (descText metaText : Option String) (acc : Nat × List String) :
    List String → Except String (Nat × List String)
  | [] => .ok acc
  | k :: ks =>
    let kw := asciiLower (jsTrim k)
    if kw = "" then eventScoreLoop descText metaText acc ks
    else
      let descStepE : Except String Nat :=
        match descText with
        | some d => if containsS d kw then (jsRegexCountG kw d).map (fun n => n * 2) else .ok 0
        | none => .ok 0
      match descStepE with
      | .error e => .error e
      | .ok descScore =>
        let metaStepE : Except String Nat :=
          match metaText with
          | some m => if containsS m kw then (jsRegexCountG kw m).map (fun n => n * 1) else .ok 0
          | none => .ok 0
        match metaStepE with
        | .error e => .error e
        | .ok metaScore =>
          if descScore > 0 || metaScore > 0 then
            eventScoreLoop descText metaText (acc.1 + descScore + metaScore, acc.2 ++ [k]) ks
          else
            eventScoreLoop descText metaText acc ks

/-- Score one event against the keyword list; `none` when no keyword
matched (the record is dropped).  `event.description` is truthy unless
empty; `event.metadata` is the parsed object, truthy whenever a non-null
canonical text is stored. -/
def scoreOneEvent (ks : List String) (e : EventItem) : Except String (Option EventScored) :=
  let descText := if e.description = "" then none else some (asciiLower e.description)
  let metaText := e.metadata.map asciiLower
  match eventScoreLoop descText metaText (0, []) ks with
  | .error err => .error err
  | .ok (total, matched) =>
    if matched.isEmpty then .ok none
    else .ok (some { item := e, relevance_score := total, matched_keywords := matched })

/-- The scored-but-unsorted stage of `searchEventsByKeywords` (fetch,
order by timestamp, project, score, drop unmatched). -/
def kwScoredFull (s : State) (ks : List String) (eventType timeRange : Option String)
    (now tz : Int) : Except String (List EventScored) :=
  match resolveRange now tz timeRange with
  | .error e => .error e
  | .ok rge =>
    let allEvents := (sortEventsDesc (kwBaseRows s eventType rge)).map eventRowToItem
    (exMap (scoreOneEvent ks) allEvents).map (fun l => l.filterMap id)

/-- `searchEventsByKeywords(keywords, eventType, timeRange, limit)`:
SQL fetch ordered by timestamp, JSON projection, then — when keywords are
present — scoring, relevance sort and slice; with no keywords the plain
projected rows are sliced (back-compat path). -/
def searchEventsByKeywords (s : State) (ks : List String)
    (eventType timeRange : Option String) (limit : Nat) (now tz : Int) :
    Except String EventsResult :=
  match ks with
  | [] =>
    match resolveRange now tz timeRange with
    | .error e => .error e
    | .ok rge =>
      .ok (.plain (((sortEventsDesc (kwBaseRows s eventType rge)).map eventRowToItem).take limit))
  | _ :: _ =>
    (kwScoredFull s ks eventType timeRange now tz).map
      (fun l => .scored ((sortScoredEventsDesc l).take limit))

/-- `searchEvents(query, keywords, eventType, timeRange, limit)`: a
non-empty keyword array delegates to `searchEventsByKeywords`; otherwise
the legacy SQL path (`LIKE` query filter, `ORDER BY timestamp DESC
LIMIT ?`). -/
def searchEvents (s : State) (query : Option String) (keywords : Option (List String))
    (eventType timeRange : Option String) (limit : Nat) (now tz : Int) :
    Except String EventsResult :=
  match keywords with
  | some (k :: ks) => searchEventsByKeywords s (k :: ks) eventType timeRange limit now tz
  | _ =>
    match resolveRange now tz timeRange with
    | .error e => .error e
    | .ok rge =>
      .ok (.plain (((sortEventsDesc (legacyRows s query eventType rge)).take limit).map
        eventRowToItem))

/-- `queryEntityTimeline(entityId, limit)`: non-deleted events of this
user whose serialized `related_entity_ids` matches one of the three LIKE
patterns the code builds — `[id,` (first of several), `, id]` (the
author's intent for "last", note the space) or `[id]` (sole element) —
ordered by timestamp descending and limited.  The patterns contain no
letters or wildcards, so LIKE is plain substring containment. -/
def queryEntityTimeline (s : State) (entityId : Int) (limit : Nat) : List EventItem :=
  let p1 := "[" ++ toString entityId ++ ","
  let p2 := ", " ++ toString entityId ++ "]"
  let p3 := "[" ++ toString entityId ++ "]"
  let rows := s.events.filter (fun r =>
    r.user_id == s.userId && !r.deleted &&
    (match r.related_entity_ids with
     | some t => containsS t p1 || containsS t p2 || containsS t p3
     | none => false))
  ((sortEventsDesc rows).take limit).map eventRowToItem

/-- `deleteEvent(eventId)`: count the non-deleted row, then
`UPDATE events SET deleted = 1 WHERE user_id = ? AND id = ?`. -/
def deleteEvent (s : State) (eventId : Nat) : State × DeleteResult :=
  let cnt := (s.events.filter (fun r =>
    r.user_id == s.userId && r.id == eventId && !r.deleted)).length
  let newEvents := s.events.map (fun r =>
    if r.user_id == s.userId && r.id == eventId then { r with deleted := true } else r)
  ({ s with events := newEvents },
   { deleted := decide (0 < cnt), changes := cnt })

/-! ### Keyword search over attributes (`searchProfileByKeywords`) -/

/-- The per-keyword loop of `searchProfileByKeywords`: the keyword is
lowercased and trimmed and skipped when empty; when it occurs in the
lowercased concatenation "key value" its occurrences are counted there
(a thrown `SyntaxError` aborts the call), key occurrences weigh 2 and
value occurrences 1 — both gated by an `includes` on the individual
field but counted on the concatenation — and the original keyword is
recorded as matched. -/
def profileScoreLoop (searchText keyText valText : String) (acc : Nat × List String) :
    List String → Except String (Nat × List String)
  | [] => .ok acc
  | k :: ks =>
    let kw := asciiLower (jsTrim k)
    if kw = "" then profileScoreLoop searchText keyText valText acc ks
    else if containsS searchText kw then
      match jsRegexCountG kw searchText with
      | .error e => .error e
      | .ok occ =>
        let keyScore := if containsS keyText kw then occ * 2 else 0
        let valueScore := if containsS valText kw then occ * 1 else 0
        profileScoreLoop searchText keyText valText
          (acc.1 + keyScore + valueScore, acc.2 ++ [k]) ks
    else profileScoreLoop searchText keyText valText acc ks

/-- The match-mode filter: "all" requires as many matches as keywords,
anything else at least one. -/
def modeAccepts (matchMode : String) (ksLen matchedLen : Nat) : Bool :=
  if matchMode = "all" then matchedLen == ksLen else decide (0 < matchedLen)

/-- Score one profile record; `none` when the match-mode filter drops it. -/
def scoreOneProfile (ks : List String) (matchMode : String) (p : ProfileItem) :
    Except String (Option ProfileScored) :=
  let searchText := asciiLower (p.key ++ " " ++ p.value)
  match profileScoreLoop searchText (asciiLower p.key) (asciiLower p.value) (0, []) ks with
  | .error e => .error e
  | .ok (total, matched) =>
    if modeAccepts matchMode ks.length matched.length then
      .ok (some { item := p, relevance_score := total, matched_keywords := matched })
    else .ok none

/-- Descending stable sort by `relevance_score` on profile results. -/
def sortScoredProfilesDesc (l : List ProfileScored) : List ProfileScored :=
  sortB (fun a b => Nat.ble b.relevance_score a.relevance_score) l

/-- The matched-and-scored stage of `searchProfileByKeywords`, before the
relevance sort and the slice. -/
def profileMatches (s : State) (ks : List String) (category : Option String)
    (matchMode : String) : Except String (List ProfileScored) :=
  (exMap (scoreOneProfile ks matchMode) (queryProfile s none category)).map
    (fun l => l.filterMap id)

/-- `searchProfileByKeywords(keywords, category, matchMode, limit)`:
query the category's non-deleted rows, score and filter per keyword and
match mode, sort by descending relevance, slice to `limit`. -/
def searchProfileByKeywords (s : State) (ks : List String) (category : Option String)
    (matchMode : String) (limit : Nat) : Except String (List ProfileScored) :=
  (profileMatches s ks category matchMode).map
    (fun l => (sortScoredProfilesDesc l).take limit)

/-! ### Keyword search over entities (`searchEntitiesByKeywords`) -/

/-- The per-keyword loop of `searchEntitiesByKeywords`: name occurrences
weigh 3 and serialized-attribute occurrences 1, each behind its own
`includes` gate; a keyword is matched when either field scored. -/
def entityScoreLoop (nameText attrsText : Option String) (acc : Nat × List String) :
    List String → Except String (Nat × List String)
  | [] => .ok acc
  | k :: ks =>
    let kw := asciiLower (jsTrim k)
    if kw = "" then entityScoreLoop nameText attrsText acc ks
    else
      let nameStepE : Except String Nat :=
        match nameText with
        | some n => if containsS n kw then (jsRegexCountG kw n).map (fun occ => occ * 3) else .ok 0
        | none => .ok 0
      match nameStepE with
      | .error e => .error e
      | .ok nameScore =>
        let attrsStepE : Except String Nat :=
          match attrsText with
          | some a => if containsS a kw then (jsRegexCountG kw a).map (fun occ => occ * 1) else .ok 0
          | none => .ok 0
        match attrsStepE with
        | .error e => .error e
        | .ok attrsScore =>
          if nameScore > 0 || attrsScore > 0 then
            entityScoreLoop nameText attrsText (acc.1 + nameScore + attrsScore, acc.2 ++ [k]) ks
          else
            entityScoreLoop nameText attrsText acc ks

/-- Score one entity.  `shouldSearchName` / `shouldSearchAttrs` come from
the `searchFields` argument; `entity.name` is truthy unless empty, the
parsed `entity.attributes` object is truthy whenever attributes are
stored.  The `matched_fields` breakdown compares with the lowercased but
untrimmed keywords, as the JS does. -/
def scoreOneEntity (ks : List String) (matchMode : String)
    (shouldSearchName shouldSearchAttrs : Bool) (e : EntityItem) :
    Except String (Option EntityScored) :=
  let nameText :=
    match e.name with
    | some n => if shouldSearchName && n ≠ "" then some (asciiLower n) else none
    | none => none
  let attrsText :=
    match e.attributes with
    | some a => if shouldSearchAttrs then some (asciiLower a) else none
    | none => none
  match entityScoreLoop nameText attrsText (0, []) ks with
  | .error err => .error err
  | .ok (total, matched) =>
    if modeAccepts matchMode ks.length matched.length then
      .ok (some
        { item := e, relevance_score := total, matched_keywords := matched,
          matchedName :=
            shouldSearchName && jsTruthy e.name &&
              ks.any (fun k =>
                match e.name with
                | some n => containsS (asciiLower n) (asciiLower k)
                | none => false),
          matchedAttrs :=
            shouldSearchAttrs && e.attributes.isSome &&
              ks.any (fun k =>
                match e.attributes with
                | some a => containsS (asciiLower a) (asciiLower k)
                | none => false) })
    else .ok none

/-- Descending stable sort by `relevance_score` on entity results. -/
def sortScoredEntitiesDesc (l : List EntityScored) : List EntityScored :=
  sortB (fun a b => Nat.ble b.relevance_score a.relevance_score) l

/-- `searchEntitiesByKeywords(keywords, entityType, searchFields,
matchMode, limit)`: candidates are `listEntities(entityType, active)`;
then keyword scoring, match-mode filter, relevance sort, slice. -/
def searchEntitiesByKeywords (s : State) (ks : List String)
    (entityType : Option String) (searchFields : List String)
    (matchMode : String) (limit : Nat) : Except String (List EntityScored) :=
  let allEntities := listEntities s entityType (some "active")
  let shouldSearchName := searchFields.contains "all" || searchFields.contains "name"
  let shouldSearchAttrs := searchFields.contains "all" || searchFields.contains "attributes"
  (exMap (scoreOneEntity ks matchMode shouldSearchName shouldSearchAttrs) allEntities).map
    (fun l => (sortScoredEntitiesDesc (l.filterMap id)).take limit)

/-! ### Auxiliary definitions used by the theorems -/

deriving instance DecidableEq for Except

/-- Did the call throw? -/
def isErr : Except ε α → Bool
  | .error _ => true
  | .ok _ => false

/-- The spec's reading of the per-record relevance score: over the
keywords that matched the record, occurrences **in the key** times 2 plus
occurrences **in the value** times 1, case-insensitively. -/
def c3ClaimScore (key value : String) (ks : List String) : Nat :=
  (ks.map (fun k =>
    let kw := asciiLower k
    if containsS (asciiLower key) kw || containsS (asciiLower value) kw then
      countOccS (asciiLower key) kw * 2 + countOccS (asciiLower value) kw * 1
    else 0)).sum

/-- Per-keyword contribution actually produced by the code: occurrences
are counted in the lowercased concatenation "key value", then weighted by
2 when the key contains the keyword plus 1 when the value does. -/
def profContrib (st keyL valL : String) (k : String) : Nat :=
  let kw := asciiLower (jsTrim k)
  if kw = "" then 0
  else if containsS st kw then
    countOccS st kw *
      ((if containsS keyL kw then 2 else 0) + (if containsS valL kw then 1 else 0))
  else 0

/-- The corrected relevance-score formula for `searchProfileByKeywords`. -/
def amendedProfileScore (key value : String) (ks : List String) : Nat :=
  (ks.map (profContrib (asciiLower (key ++ " " ++ value)) (asciiLower key)
    (asciiLower value))).sum

/-- The keywords the profile scoring loop records as matched: nonempty
after lowercasing and trimming, and occurring in the concatenation. -/
def profMatchedKws (st : String) (ks : List String) : List String :=
  ks.filter (fun k =>
    let kw := asciiLower (jsTrim k)
    !(kw == "") && containsS st kw)

/-- The spec's half-open time-interval membership test: start inclusive,
end exclusive. -/
def halfOpenCond (a b : Int) (ts : String) : Bool :=
  strLeB (msToIso a) ts && strLtB ts (msToIso b)

/-- Spec-side year rule of `new Date`: years 0–99 mean 1900–1999. -/
def jsYearAdjust (y : Int) : Int := if 0 ≤ y ∧ y ≤ 99 then y + 1900 else y

/-- Spec-side normalization of `new Date(y, m - 1, 1)` for a 1-based
month number `m` (possibly 0 or above 12): the civil `(year, month)`
pair after the year adjustment and the month rollover. -/
def jsNormMonth1 (y m : Int) : Int × Int :=
  let ya := jsYearAdjust y
  (ya + Int.fdiv (m - 1) 12, Int.fmod (m - 1) 12 + 1)

/-- Year digits of a string matching the `YYYY-MM` pattern. -/
def ymYear (s : String) : Int := (digitsVal (s.data.take 4) : Nat)

/-- Month digits of a string matching the `YYYY-MM` pattern. -/
def ymMonth (s : String) : Int := (digitsVal (s.data.drop 5) : Nat)

/-- Year digits of a string matching the `YYYY` pattern. -/
def yVal (s : String) : Int := (digitsVal s.data : Nat)

/-! ### Concrete fixtures -/

/-- One active pet entity created through `createEntity`. -/
def fixC1 : State :=
  (createEntity (initState "default") "pet" (some "Fido") none
    "2024-01-01T00:00:00.000Z").1

/-- `deleteEntity(1)` applied to `fixC1`. -/
def fixC1After : State × DeleteResult :=
  deleteEntity fixC1 1 "2024-01-02T00:00:00.000Z"

/-- The row of `fixC1` after its deletion. -/
def fixC1Row : EntityRow :=
  { id := 1, user_id := "default", entity_type := "pet", name := some "Fido",
    attributes := none, created_at := "2024-01-01T00:00:00.000Z",
    updated_at := "2024-01-02T00:00:00.000Z", status := "active", deleted := true }

/-- Two events added through `addEvent`: one related to entities `[1, 2]`
(2 is the last element), one related to `[1, 2, 3]` (2 is a middle
element, 3 the last). -/
def fixC2 : State :=
  (addEvent
    ((addEvent (initState "default") "illness" "vet visit" (some [1, 2]) none
        (some "2024-01-02T00:00:00.000Z") 1 "2024-01-02T00:00:00.000Z").1)
    "activity" "walk" (some [1, 2, 3]) none
    (some "2024-01-01T00:00:00.000Z") 1 "2024-01-01T00:00:00.000Z").1

/-- One attribute whose key is "aa" and value "a". -/
def fixC3 : State := (updateProfile (initState "default") "aa" "a" none "t1").1

/-- Write "city" = "Beijing". -/
def fixC4a : State × ProfileUpdateResult :=
  updateProfile (initState "default") "city" "Beijing" none "t1"

/-- …soft-delete "city"… -/
def fixC4b : State × DeleteResult := deleteProfile fixC4a.1 "city" "t2"

/-- …then write "city" = "Shanghai" over the soft-deleted row. -/
def fixC4c : State × ProfileUpdateResult :=
  updateProfile fixC4b.1 "city" "Shanghai" none "t3"

/-- One event whose timestamp is exactly `msToIso 0`, the end instant of
every relative range when `now = 0`. -/
def fixC6 : State :=
  (addEvent (initState "default") "activity" "walk" none none (some (msToIso 0))
    1 (msToIso 0)).1

/-- The projection of the event of `fixC6`. -/
def c6Item : EventItem :=
  { id := 1, event_type := "activity", description := "walk",
    related_entity_ids := none, metadata := none,
    timestamp := "1970-01-01T00:00:00.000Z", importance := 1 }

/-- Two attributes: "ppppp" (matches only "p", score 10) and "pq"
(matches both "p" and "q", score 4). -/
def fixC7 : State :=
  (updateProfile ((updateProfile (initState "default") "ppppp" "" none "t1").1)
    "pq" "" none "t2").1

/-- An attribute whose value contains the literal text "c++". -/
def fixC10P : State :=
  (updateProfile (initState "default") "skills" "c++ dev" none "t1").1

/-- An entity whose name contains the literal text "c++". -/
def fixC10E : State :=
  (createEntity (initState "default") "person" (some "c++ guru") none "t1").1

/-- An event whose description contains the literal text "c++". -/
def fixC10V : State :=
  (addEvent (initState "default") "activity" "learn c++" none none
    (some "2024-01-01T00:00:00.000Z") 1 "2024-01-01T00:00:00.000Z").1

/-- The scored record the search returns over `fixC3` for keyword "a". -/
def c3Record : ProfileScored :=
  { item := { key := "aa", value := "a", category := none, updated_at := "t1",
              confidence := 1 },
    relevance_score := 9, matched_keywords := ["a"] }

/-- The scored record keyword "walk" produces over `fixC6`. -/
def c6Scored : EventScored :=
  { item := c6Item, relevance_score := 2, matched_keywords := ["walk"] }

/-- The scored "ppppp" record of `fixC7` (matches only "p"). -/
def c7AnyRecord : ProfileScored :=
  { item := { key := "ppppp", value := "", category := none, updated_at := "t1",
              confidence := 1 },
    relevance_score := 10, matched_keywords := ["p"] }

/-- The scored "pq" record of `fixC7` (matches "p" and "q"). -/
def c7AllRecord : ProfileScored :=
  { item := { key := "pq", value := "", category := none, updated_at := "t2",
              confidence := 1 },
    relevance_score := 4, matched_keywords := ["p", "q"] }

/-- Two entities named "ppppp" and "pq", mirroring the `fixC7` scenario
on the entity search. -/
def fixC7E : State :=
  (createEntity ((createEntity (initState "default") "pet" (some "ppppp") none
      "t1").1)
    "pet" (some "pq") none "t2").1

/-- The scored "pq" entity of `fixC7E` (matches "p" and "q", score 6). -/
def c7EAllRecord : EntityScored :=
  { item := { id := 2, entity_type := "pet", name := some "pq", attributes := none,
              created_at := "t2", updated_at := "t2", status := "active" },
    relevance_score := 6, matched_keywords := ["p", "q"],
    matchedName := true, matchedAttrs := false }

/-- The scored "ppppp" entity of `fixC7E` (matches only "p", score 15). -/
def c7EAnyRecord : EntityScored :=
  { item := { id := 1, entity_type := "pet", name := some "ppppp",
              attributes := none, created_at := "t1", updated_at := "t1",
              status := "active" },
    relevance_score := 15, matched_keywords := ["p"],
    matchedName := true, matchedAttrs := false }

/-! ### Claim theorems: concrete demonstrations -/

/-- Claim C1 (code bug): the claim — backed by the repo's own tool
description "软删除，状态改为 inactive" — says `deleteEntity(id)` sets
`status = inactive`, leaves the `deleted` flag unset, and that
`listEntities(status = all)` afterwards still includes the entity as
inactive.  The code instead runs `UPDATE entities SET deleted = 1` and
never touches `status`: after `deleteEntity(1)` the row keeps
`status = "active"`, carries `deleted = true`, and is excluded from both
the "active" and the "all" listing. -/
theorem c1_deleteEntity_sets_deleted_not_status :
    fixC1After.2 = { deleted := true, changes := 1 } ∧
    fixC1After.1.entities = [fixC1Row] ∧
    fixC1Row.status = "active" ∧ fixC1Row.deleted = true ∧
    listEntities fixC1After.1 none (some "all") = [] ∧
    listEntities fixC1After.1 none (some "active") = [] := by decide

/-- Claim C2 (code bug): the claim says `queryEntityTimeline(id)` returns
an event exactly when `id` is a member of its `related_entity_ids`, at any
position.  The LIKE patterns the code builds — `[id,`, `, id]` (with a
space `JSON.stringify` never writes) and `[id]` — miss both middle and
last positions: with stored arrays `[1,2]` and `[1,2,3]`, the timelines
of entities 2 and 3 are empty although both ids are members, while the
first-position entity 1 sees both events. -/
theorem c2_timeline_misses_middle_and_last :
    (fixC2.events.map (fun r => r.related_entity_ids)) =
      [some "[1,2]", some "[1,2,3]"] ∧
    jsonParseIntList "[1,2]" = some [1, 2] ∧ (2 : Int) ∈ [(1 : Int), 2] ∧
    jsonParseIntList "[1,2,3]" = some [1, 2, 3] ∧
    (2 : Int) ∈ [(1 : Int), 2, 3] ∧ (3 : Int) ∈ [(1 : Int), 2, 3] ∧
    queryEntityTimeline fixC2 2 10 = [] ∧
    queryEntityTimeline fixC2 3 10 = [] ∧
    (queryEntityTimeline fixC2 1 10).length = 2 := by decide

/-- Claim C3, counterexample: the claim scores a record as (occurrences
in key) × 2 + (occurrences in value) × 1 per matched keyword, which for
key "aa", value "a", keyword "a" gives 5.  The code counts occurrences in
the concatenation "aa a" (three occurrences) and weighs that count by
both field gates, producing 9. -/
theorem c3_score_counts_concatenation :
    searchProfileByKeywords fixC3 ["a"] none "any" 20 =
      .ok [{ item := { key := "aa", value := "a", category := none,
                       updated_at := "t1", confidence := 1 },
             relevance_score := 9, matched_keywords := ["a"] }] ∧
    c3ClaimScore "aa" "a" ["a"] = 5 ∧ (9 : Nat) ≠ 5 := by decide

/-- Claim C4, counterexample: the claim reports a previous value only
when the existing row is not soft-deleted.  After writing "city",
soft-deleting it, and writing it again, the stored row is deleted, yet
the second write still reports `had_previous_value = true` with the old
value — the `SELECT` in `updateProfile` has no `deleted = 0` filter. -/
theorem c4_previous_value_survives_soft_delete :
    (fixC4b.1.profiles.map (fun r => (r.key, r.deleted))) = [("city", true)] ∧
    fixC4c.2 = { updated := true, had_previous_value := true,
                 previous_value := some "Beijing" } := by decide

/-- Claim C5, counterexample: the claim says `createEntity` validates its
type against the four-value enum and rejects anything else.  The helper
`isValidEntityType` indeed recognises only the four values, but
`createEntity` never calls it: the invalid type "dragon" is inserted and
an id returned. -/
theorem c5_createEntity_accepts_invalid_type :
    isValidEntityType "dragon" = false ∧
    (createEntity (initState "default") "dragon" none none "t1").2 = 1 ∧
    (createEntity (initState "default") "dragon" none none "t1").1.entities =
      [{ id := 1, user_id := "default", entity_type := "dragon", name := none,
         attributes := none, created_at := "t1", updated_at := "t1",
         status := "active", deleted := false }] := by decide

/-- Claim C6, counterexample: the claim resolves `timeRange` to a
half-open interval excluding the end instant.  With `now = 0` the range
"last_week" ends at instant 0; an event stamped exactly
`msToIso 0 = 1970-01-01T00:00:00.000Z` fails the half-open test, yet the
legacy search returns it — `timestamp BETWEEN ? AND ?` is inclusive at
both ends. -/
theorem c6_end_instant_is_included :
    parseTimeRange 0 0 "last_week" = .ok (-604800000, 0) ∧
    halfOpenCond (-604800000) 0 "1970-01-01T00:00:00.000Z" = false ∧
    searchEvents fixC6 none none none (some "last_week") 20 0 0 =
      .ok (.plain [c6Item]) := by decide

/-- Claim C7, counterexample: the claim makes every `matchMode = all`
result list a subset of the `matchMode = any` list for the same keywords
and limit.  With keywords ["p", "q"] and limit 1, the record "pq"
(matches both, score 4) is the whole "all" list, while the "any" list is
the higher-scoring "ppppp" (score 10) — so the "all" result is not
contained in the "any" result. -/
theorem c7_all_not_subset_of_any_under_limit :
    searchProfileByKeywords fixC7 ["p", "q"] none "all" 1 =
      .ok [{ item := { key := "pq", value := "", category := none,
                       updated_at := "t2", confidence := 1 },
             relevance_score := 4, matched_keywords := ["p", "q"] }] ∧
    searchProfileByKeywords fixC7 ["p", "q"] none "any" 1 =
      .ok [{ item := { key := "ppppp", value := "", category := none,
                       updated_at := "t1", confidence := 1 },
             relevance_score := 10, matched_keywords := ["p"] }] ∧
    ({ item := { key := "pq", value := "", category := none,
                 updated_at := "t2", confidence := 1 },
       relevance_score := 4,
       matched_keywords := ["p", "q"] } : ProfileScored) ∉
      [({ item := { key := "ppppp", value := "", category := none,
                    updated_at := "t1", confidence := 1 },
          relevance_score := 10, matched_keywords := ["p"] } : ProfileScored)] := by
  decide

/-- Claim C8, counterexample: the claim maps "YYYY" to Jan 1 of that year
and "YYYY-MM" to the first instant of that month, failing on everything
else.  `new Date` reads years 0–99 as 1900–1999, so "0050" resolves to
1950–1951 rather than 50–51; and "2024-13" — not a calendar month —
succeeds by rolling over to January 2025 instead of failing. -/
theorem c8_year_and_month_quirks :
    matchY "0050" = true ∧
    parseTimeRange 0 0 "0050" =
      .ok (civilMonthStartMs 0 1950 1, civilMonthStartMs 0 1951 1) ∧
    civilMonthStartMs 0 1950 1 ≠ civilMonthStartMs 0 50 1 ∧
    parseTimeRange 0 0 "2024-13" =
      .ok (civilMonthStartMs 0 2025 1, civilMonthStartMs 0 2025 2) ∧
    isErr (parseTimeRange 0 0 "2024-13") = false := by decide

/-- Claim C10: each keyword is compiled with `new RegExp(kw, g)` once the
substring gate passes, so a keyword that is not a valid regular
expression — "c++", whose second `+` has nothing to repeat — makes
`searchProfileByKeywords`, `searchEntitiesByKeywords` and
`searchEventsByKeywords` throw instead of returning a result list,
whenever a stored record contains the keyword text. -/
theorem c10_invalid_regex_keyword_throws :
    regexBadQuant "c++" = true ∧
    isErr (searchProfileByKeywords fixC10P ["c++"] none "any" 20) = true ∧
    isErr (searchEntitiesByKeywords fixC10E ["c++"] none ["all"] "any" 20) = true ∧
    isErr (searchEventsByKeywords fixC10V ["c++"] none none 20 0 0) = true := by
  decide

/-! ### Helper lemmas on the pipeline combinators -/

theorem mem_insertB (le : α → α → Bool) (a x : α) (l : List α) :
    x ∈ insertB le a l ↔ x = a ∨ x ∈ l := by
  induction l with
  | nil => simp [insertB]
  | cons b t ih =>
    by_cases h : le a b = true
    · simp [insertB, h]
    · simp only [insertB, h]
      simp only [Bool.false_eq_true, if_false, List.mem_cons, ih]
      tauto

theorem mem_sortB (le : α → α → Bool) (x : α) (l : List α) :
    x ∈ sortB le l ↔ x ∈ l := by
  induction l with
  | nil => simp [sortB]
  | cons a t ih => simp [sortB, mem_insertB, ih]

theorem length_insertB (le : α → α → Bool) (a : α) (l : List α) :
    (insertB le a l).length = l.length + 1 := by
  induction l with
  | nil => simp [insertB]
  | cons b t ih =>
    by_cases h : le a b = true
    · simp [insertB, h]
    · simp only [insertB, h]
      simp [ih]

theorem length_sortB (le : α → α → Bool) (l : List α) :
    (sortB le l).length = l.length := by
  induction l with
  | nil => simp [sortB]
  | cons a t ih => simp [sortB, length_insertB, ih]

theorem mem_take_sortB (le : α → α → Bool) (l : List α) (n : Nat)
    (h : l.length ≤ n) (x : α) : x ∈ (sortB le l).take n ↔ x ∈ l := by
  rw [List.take_of_length_le (by rw [length_sortB]; exact h), mem_sortB]

theorem exMap_ok_mem_iff {f : α → Except ε β} {l : List α} {ys : List β}
    (h : exMap f l = .ok ys) (y : β) : y ∈ ys ↔ ∃ x ∈ l, f x = .ok y := by
  induction l generalizing ys with
  | nil =>
    simp only [exMap] at h
    cases h
    simp
  | cons a t ih =>
    simp only [exMap] at h
    cases hfa : f a with
    | error e => rw [hfa] at h; cases h
    | ok b =>
      rw [hfa] at h
      cases hrest : exMap f t with
      | error e => rw [hrest] at h; cases h
      | ok bs =>
        rw [hrest] at h
        simp only [Except.map] at h
        cases h
        constructor
        · intro hy
          rcases List.mem_cons.mp hy with hyb | hybs
          · exact ⟨a, by simp, by rw [hfa, hyb]⟩
          · rcases (ih hrest).mp hybs with ⟨x, hx, hfx⟩
            exact ⟨x, by simp [hx], hfx⟩
        · rintro ⟨x, hx, hfx⟩
          rcases List.mem_cons.mp hx with hxa | hxt
          · subst hxa
            rw [hfa] at hfx
            cases hfx
            simp
          · exact List.mem_cons.mpr (Or.inr ((ih hrest).mpr ⟨x, hxt, hfx⟩))

theorem exceptMap_ok {e : Except ε α} {g : α → β} {v : β}
    (h : e.map g = .ok v) : ∃ u, e = .ok u ∧ g u = v := by
  cases e with
  | error a => simp [Except.map] at h
  | ok u =>
    refine ⟨u, rfl, ?_⟩
    simpa [Except.map] using h

theorem find?_map_pred {f : α → α} {p : α → Bool} (h : ∀ x, p (f x) = p x)
    (l : List α) : (l.map f).find? p = (l.find? p).map f := by
  induction l with
  | nil => simp
  | cons a t ih =>
    simp only [List.map_cons, List.find?]
    rw [h a]
    cases hp : p a <;> simp [hp, ih]

theorem find?_append_of_none {p : α → Bool} {l1 l2 : List α}
    (h : l1.find? p = none) : (l1 ++ l2).find? p = l2.find? p := by
  induction l1 with
  | nil => simp
  | cons a t ih =>
    simp only [List.find?] at h ⊢
    cases hp : p a
    · rw [hp] at h
      simp only [List.cons_append, List.find?, hp]
      exact ih h
    · rw [hp] at h
      cases h

/-- A literal pattern never trips the nothing-to-repeat scan. -/
theorem badQuantAux_eq_false {l : List Char}
    (h : ∀ c ∈ l, isQuantChar c = false) : ∀ st, badQuantAux st l = false := by
  induction l with
  | nil => intro st; simp [badQuantAux]
  | cons c t ih =>
    intro st
    have hc : isQuantChar c = false := h c (by simp)
    simp only [badQuantAux, hc]
    exact ih (fun x hx => h x (by simp [hx])) 1

/-- A regex-literal keyword compiles: no `Nothing to repeat` error. -/
theorem literalStr_no_badQuant {s : String} (h : literalStr s = true) :
    regexBadQuant s = false := by
  apply badQuantAux_eq_false
  intro c hc
  have hns := (List.all_eq_true.mp h) c hc
  simp only [Bool.not_eq_true'] at hns
  cases hq : isQuantChar c
  · rfl
  · exfalso
    have : isRegexSpecialChar c = true := by simp [isRegexSpecialChar, hq]
    rw [this] at hns
    cases hns

/-- A regex-literal keyword is counted by `countOccS`. -/
theorem jsRegexCountG_literal {kw text : String} (h : literalStr kw = true) :
    jsRegexCountG kw text = .ok (countOccS text kw) := by
  simp [jsRegexCountG, literalStr_no_badQuant h]

/-! ### Claim C9 and the amended claims C4, C5 -/

/-- Claim C9: `updateEntity` does not exclude soft-deleted rows — with a
matching row whose `deleted` flag is set and at least one supplied field,
it still reports `updated = true` and stores the patched row, because
neither its existence check nor its UPDATE filters on `deleted`. -/
theorem c9_updateEntity_ignores_deleted_flag
    (s : State) (entityId : Nat) (name attributes status : Option String)
    (now : String) (r : EntityRow) (hmem : r ∈ s.entities)
    (hu : r.user_id = s.userId) (hid : r.id = entityId) (hdel : r.deleted = true)
    (hsome : ¬ (name = none ∧ attributes = none ∧ status = none)) :
    (updateEntity s entityId name attributes status now).2.updated = true ∧
    entityPatch name attributes status now r ∈
      (updateEntity s entityId name attributes status now).1.entities := by
  have hguard : (name.isNone && attributes.isNone && status.isNone) = false := by
    cases name <;> cases attributes <;> cases status <;> simp_all
  have hpr : (r.user_id == s.userId && r.id == entityId) = true := by
    simp [hu, hid]
  constructor
  · simp only [updateEntity, hguard, Bool.false_eq_true, if_false]
    have hmf : r ∈ s.entities.filter
        (fun x => x.user_id == s.userId && x.id == entityId) :=
      List.mem_filter.mpr ⟨hmem, hpr⟩
    have hpos : 0 <
        (s.entities.filter (fun x => x.user_id == s.userId && x.id == entityId)).length :=
      List.length_pos.mpr (List.ne_nil_of_mem hmf)
    simp [hpos]
  · simp only [updateEntity, hguard, Bool.false_eq_true, if_false]
    have := List.mem_map_of_mem
      (fun x => if x.user_id == s.userId && x.id == entityId then
        entityPatch name attributes status now x else x) hmem
    simpa [hpr] using this

/-- Witness for C9: the soft-deleted entity of `fixC1After` is still
patched by `updateEntity` and reported updated. -/
theorem c9_updateEntity_ignores_deleted_flag_witness :
    (updateEntity fixC1After.1 1 (some "Rex") none none "t3").2.updated = true ∧
    entityPatch (some "Rex") none none "t3" fixC1Row ∈
      (updateEntity fixC1After.1 1 (some "Rex") none none "t3").1.entities :=
  c9_updateEntity_ignores_deleted_flag fixC1After.1 1 (some "Rex") none none "t3"
    fixC1Row (by decide) (by decide) (by decide) (by decide) (by simp)

/-- Claim C4, amended: `updateProfile` always succeeds, reports
`had_previous_value` and `previous_value` from the row stored under
`(user_id, key)` regardless of its `deleted` flag, and afterwards the
stored row under that key carries the new value. -/
theorem c4_amended_previous_value_ignores_deleted
    (s : State) (key value : String) (category : Option String) (now : String) :
    (updateProfile s key value category now).2.updated = true ∧
    (updateProfile s key value category now).2.had_previous_value =
      (s.profiles.find? (fun r => r.user_id == s.userId && r.key == key)).isSome ∧
    (updateProfile s key value category now).2.previous_value =
      (s.profiles.find? (fun r => r.user_id == s.userId && r.key == key)).map
        (fun r => r.value) ∧
    ((updateProfile s key value category now).1.profiles.find?
        (fun r => r.user_id == s.userId && r.key == key)).map (fun r => r.value) =
      some value := by
  refine ⟨rfl, rfl, rfl, ?_⟩
  cases hf : s.profiles.find? (fun r => r.user_id == s.userId && r.key == key) with
  | none =>
    simp only [updateProfile, hf]
    rw [find?_append_of_none hf]
    simp
  | some r0 =>
    have hp0 := List.find?_some hf
    have hpres : ∀ x : ProfileRow,
        (fun r => r.user_id == s.userId && r.key == key)
          ((fun r => if r.user_id == s.userId && r.key == key then
            { r with value := value,
                     category := match category with
                                 | some c => some c
                                 | none => r.category,
                     updated_at := now }
            else r) x) =
        (fun r => r.user_id == s.userId && r.key == key) x := by
      intro x
      by_cases hx : (x.user_id == s.userId && x.key == key) = true <;> simp [hx]
    simp only [updateProfile, hf]
    rw [find?_map_pred hpres, hf]
    simp only [Bool.and_eq_true, beq_iff_eq] at hp0
    simp [hp0]

/-- Claim C5, amended: `createEntity` performs no validation of its type
argument — for every type string it appends a fresh active row with that
`entity_type` and returns the new id — while the (uncalled) helper
`isValidEntityType` recognises exactly the four enum values. -/
theorem c5_amended_createEntity_never_validates
    (s : State) (t : String) (name attributes : Option String) (now : String) :
    (createEntity s t name attributes now).2 = s.nextEntityId ∧
    (createEntity s t name attributes now).1.entities =
      s.entities ++
        [{ id := s.nextEntityId, user_id := s.userId, entity_type := t,
           name := name, attributes := attributes, created_at := now,
           updated_at := now, status := "active", deleted := false }] ∧
    isValidEntityType t =
      (t == "pet" || t == "property" || t == "vehicle" || t == "person") := by
  refine ⟨rfl, rfl, ?_⟩
  simp only [isValidEntityType, List.contains, List.elem]
  cases h1 : t == "pet" <;> cases h2 : t == "property" <;>
    cases h3 : t == "vehicle" <;> cases h4 : t == "person" <;> simp_all

/-! ### The profile scoring loop, characterised on literal keywords -/

/-- On regex-literal keywords the scoring loop cannot throw: it returns
the accumulated contributions of `profContrib` and appends the keywords
`profMatchedKws` selects. -/
theorem profileScoreLoop_ok (st keyT valT : String) (ks : List String)
    (hlit : ∀ k ∈ ks, literalStr (asciiLower (jsTrim k)) = true) :
    ∀ acc : Nat × List String,
      profileScoreLoop st keyT valT acc ks =
        .ok (acc.1 + (ks.map (profContrib st keyT valT)).sum,
             acc.2 ++ profMatchedKws st ks) := by
  induction ks with
  | nil => intro acc; simp [profileScoreLoop, profMatchedKws]
  | cons k t ih =>
    intro acc
    have hk := hlit k (by simp)
    have ht : ∀ x ∈ t, literalStr (asciiLower (jsTrim x)) = true :=
      fun x hx => hlit x (by simp [hx])
    by_cases he : asciiLower (jsTrim k) = ""
    · simp only [profileScoreLoop, he, if_true, reduceIte]
      rw [ih ht acc]
      simp [profMatchedKws, profContrib, he, List.filter_cons]
    · by_cases hc : containsS st (asciiLower (jsTrim k)) = true
      · simp only [profileScoreLoop, he, hc, jsRegexCountG,
          literalStr_no_badQuant hk, Bool.false_eq_true, if_false, if_true, reduceIte]
        rw [ih ht]
        have harith :
            (if containsS keyT (asciiLower (jsTrim k)) then
                countOccS st (asciiLower (jsTrim k)) * 2 else 0) +
              (if containsS valT (asciiLower (jsTrim k)) then
                countOccS st (asciiLower (jsTrim k)) * 1 else 0) =
            profContrib st keyT valT k := by
          simp only [profContrib, he, hc, if_false, if_true, reduceIte]
          split_ifs <;> ring
        have hkw : (asciiLower (jsTrim k) == "") = false := by simp [he]
        simp only [profMatchedKws, List.filter_cons, hc, hkw, Bool.not_false,
          Bool.and_true, List.map_cons, List.sum_cons, if_true, reduceIte]
        simp only [Except.ok.injEq, Prod.mk.injEq]
        constructor
        · rw [← harith]
          omega
        · simp [List.append_assoc]
      · simp only [profileScoreLoop, he, hc, Bool.false_eq_true, if_false, reduceIte]
        rw [ih ht acc]
        simp [profMatchedKws, profContrib, he, hc, List.filter_cons]

/-- Decompose a successful `searchProfileByKeywords` run into its
matched-and-scored stage and the sort-and-slice. -/
theorem searchProfile_ok_elim {s : State} {ks : List String}
    {category : Option String} {matchMode : String} {limit : Nat}
    {res : List ProfileScored}
    (h : searchProfileByKeywords s ks category matchMode limit = .ok res) :
    ∃ L, profileMatches s ks category matchMode = .ok L ∧
      res = (sortScoredProfilesDesc L).take limit := by
  rcases exceptMap_ok h with ⟨L, hL, hres⟩
  exact ⟨L, hL, hres.symm⟩

/-- Membership in the matched stage comes from scoring one queried
profile to `some` record. -/
theorem profileMatches_ok_mem {s : State} {ks : List String}
    {category : Option String} {matchMode : String} {L : List ProfileScored}
    (h : profileMatches s ks category matchMode = .ok L) (r : ProfileScored) :
    r ∈ L ↔ ∃ p ∈ queryProfile s none category,
      scoreOneProfile ks matchMode p = .ok (some r) := by
  rcases exceptMap_ok h with ⟨ys, hys, hfm⟩
  subst hfm
  constructor
  · intro hr
    rcases List.mem_filterMap.mp hr with ⟨o, ho, hoeq⟩
    simp only [id] at hoeq
    subst hoeq
    exact (exMap_ok_mem_iff hys (some r)).mp ho
  · intro hex
    exact List.mem_filterMap.mpr ⟨some r, (exMap_ok_mem_iff hys (some r)).mpr hex, rfl⟩

/-- Claim C3, amended: every record returned by
`searchProfileByKeywords` over regex-literal keywords carries
`relevance_score` equal to `amendedProfileScore` — occurrences counted in
the lowercased concatenation "key value", weighted by 2 per key
containment plus 1 per value containment, summed over the matched
keywords. -/
theorem c3_amended_score_formula
    (s : State) (ks : List String) (category : Option String) (matchMode : String)
    (limit : Nat)
    (hlit : ∀ k ∈ ks, literalStr (asciiLower (jsTrim k)) = true)
    (res : List ProfileScored)
    (hres : searchProfileByKeywords s ks category matchMode limit = .ok res) :
    ∀ r ∈ res, r.relevance_score = amendedProfileScore r.item.key r.item.value ks := by
  intro r hr
  rcases searchProfile_ok_elim hres with ⟨L, hL, hres2⟩
  subst hres2
  have hrL : r ∈ L := by
    have h1 := List.take_subset _ _ hr
    simpa only [sortScoredProfilesDesc, mem_sortB] using h1
  rcases (profileMatches_ok_mem hL r).mp hrL with ⟨p, _hp, hscore⟩
  simp only [scoreOneProfile, profileScoreLoop_ok _ _ _ ks hlit] at hscore
  split at hscore
  · simp only [Except.ok.injEq, Option.some.injEq] at hscore
    subst hscore
    simp [amendedProfileScore]
  · simp at hscore

/-- Witness for the amended C3 over `fixC3`. -/
theorem c3_amended_score_formula_witness :
    (searchProfileByKeywords fixC3 ["a"] none "any" 20 = .ok [c3Record]) ∧
    c3Record.relevance_score = amendedProfileScore "aa" "a" ["a"] :=
  ⟨by decide,
   c3_amended_score_formula fixC3 ["a"] none "any" 20 (by decide) [c3Record]
     (by decide) c3Record (by decide)⟩

/-! ### Match-mode transfer and the amended C7 -/

/-- A record accepted under `matchMode = "all"` is accepted under
`"any"` as well, provided the keyword list is non-empty. -/
theorem scoreOneProfile_all_to_any {ks : List String} {p : ProfileItem}
    {r : ProfileScored} (hne : ks ≠ [])
    (h : scoreOneProfile ks "all" p = .ok (some r)) :
    scoreOneProfile ks "any" p = .ok (some r) := by
  simp only [scoreOneProfile] at h ⊢
  cases hloop : profileScoreLoop (asciiLower (p.key ++ " " ++ p.value))
      (asciiLower p.key) (asciiLower p.value) (0, []) ks with
  | error e => rw [hloop] at h; cases h
  | ok tm =>
    obtain ⟨total, matched⟩ := tm
    rw [hloop] at h
    have h' : (if modeAccepts "all" ks.length matched.length = true then
        Except.ok (some { item := p, relevance_score := total,
                          matched_keywords := matched })
      else Except.ok none) = Except.ok (some r) := h
    show (if modeAccepts "any" ks.length matched.length = true then
        Except.ok (some { item := p, relevance_score := total,
                          matched_keywords := matched })
      else Except.ok none) = Except.ok (some r)
    by_cases hacc : modeAccepts "all" ks.length matched.length = true
    · rw [if_pos hacc] at h'
      have hlen : matched.length = ks.length := by
        simpa [modeAccepts] using hacc
      have hacc2 : modeAccepts "any" ks.length matched.length = true := by
        have hpos : 0 < ks.length := List.length_pos.mpr hne
        simp [modeAccepts, hlen, hpos]
      rw [if_pos hacc2]
      exact h'
    · rw [if_neg hacc] at h'
      simp at h'

/-- An acceptance under `matchMode = "all"` implies acceptance under
`"any"`, for a non-empty keyword list. -/
theorem modeAccepts_all_to_any {ks : List String} (hne : ks ≠ []) {n : Nat}
    (h : modeAccepts "all" ks.length n = true) :
    modeAccepts "any" ks.length n = true := by
  have hlen : n = ks.length := by simpa [modeAccepts] using h
  have hpos : 0 < ks.length := List.length_pos.mpr hne
  simp [modeAccepts, hlen, hpos]

/-- An entity record accepted under `matchMode = "all"` is accepted
under `"any"` as well, provided the keyword list is non-empty; the
record itself (scores and matched-field breakdown) does not depend on
the match mode. -/
theorem scoreOneEntity_all_to_any {ks : List String} {sn sa : Bool}
    {e : EntityItem} {r : EntityScored} (hne : ks ≠ [])
    (h : scoreOneEntity ks "all" sn sa e = .ok (some r)) :
    scoreOneEntity ks "any" sn sa e = .ok (some r) := by
  simp only [scoreOneEntity] at h ⊢
  split at h
  · simp at h
  · rename_i total matched heq
    split at h
    · rename_i hacc
      rw [if_pos (modeAccepts_all_to_any hne hacc)]
      exact h
    · simp at h

/-- Decompose a successful `searchEntitiesByKeywords` run into the
scoring pass over the active entities and the filter-sort-slice. -/
theorem searchEntities_ok_elim {s : State} {ks : List String}
    {entityType : Option String} {searchFields : List String}
    {matchMode : String} {limit : Nat} {res : List EntityScored}
    (h : searchEntitiesByKeywords s ks entityType searchFields matchMode limit =
      .ok res) :
    ∃ ys, exMap (scoreOneEntity ks matchMode
        (searchFields.contains "all" || searchFields.contains "name")
        (searchFields.contains "all" || searchFields.contains "attributes"))
        (listEntities s entityType (some "active")) = .ok ys ∧
      res = (sortScoredEntitiesDesc (ys.filterMap id)).take limit := by
  simp only [searchEntitiesByKeywords] at h
  rcases exceptMap_ok h with ⟨ys, hys, hres⟩
  exact ⟨ys, hys, hres.symm⟩

/-- Claim C7, amended, for both cited searches: with a non-empty keyword
list and a limit that does not truncate the `matchMode = "any"` result,
every record of the `matchMode = "all"` result list of
`searchProfileByKeywords` is in its `"any"` result list, and likewise
for `searchEntitiesByKeywords`. -/
theorem c7_amended_all_subset_any
    (s : State) (ks : List String) (category entityType : Option String)
    (searchFields : List String) (limit : Nat) (hne : ks ≠ []) :
    (∀ L, profileMatches s ks category "any" = .ok L → L.length ≤ limit →
      ∀ resAll resAny,
        searchProfileByKeywords s ks category "all" limit = .ok resAll →
        searchProfileByKeywords s ks category "any" limit = .ok resAny →
        ∀ r ∈ resAll, r ∈ resAny) ∧
    (∀ ys, exMap (scoreOneEntity ks "any"
          (searchFields.contains "all" || searchFields.contains "name")
          (searchFields.contains "all" || searchFields.contains "attributes"))
          (listEntities s entityType (some "active")) = .ok ys →
      (ys.filterMap id).length ≤ limit →
      ∀ resAllE resAnyE,
        searchEntitiesByKeywords s ks entityType searchFields "all" limit =
          .ok resAllE →
        searchEntitiesByKeywords s ks entityType searchFields "any" limit =
          .ok resAnyE →
        ∀ r ∈ resAllE, r ∈ resAnyE) := by
  constructor
  · intro L hany hlen resAll resAny hall hanyR r hr
    rcases searchProfile_ok_elim hall with ⟨LA, hLA, hresAll⟩
    subst hresAll
    have hrLA : r ∈ LA := by
      have h1 := List.take_subset _ _ hr
      simpa only [sortScoredProfilesDesc, mem_sortB] using h1
    rcases (profileMatches_ok_mem hLA r).mp hrLA with ⟨p, hp, hscoreAll⟩
    have hscoreAny := scoreOneProfile_all_to_any hne hscoreAll
    have hrL : r ∈ L := (profileMatches_ok_mem hany r).mpr ⟨p, hp, hscoreAny⟩
    rcases searchProfile_ok_elim hanyR with ⟨L2, hL2, hresAny⟩
    rw [hany] at hL2
    cases hL2
    subst hresAny
    simp only [sortScoredProfilesDesc]
    rw [mem_take_sortB _ _ _ hlen]
    exact hrL
  · intro ys hany hlen resAllE resAnyE hall hanyR r hr
    rcases searchEntities_ok_elim hall with ⟨ysA, hysA, hresAll⟩
    subst hresAll
    have hr1 : r ∈ ysA.filterMap id := by
      have h1 := List.take_subset _ _ hr
      simpa only [sortScoredEntitiesDesc, mem_sortB] using h1
    rcases List.mem_filterMap.mp hr1 with ⟨o, ho, hoeq⟩
    simp only [id] at hoeq
    subst hoeq
    rcases (exMap_ok_mem_iff hysA (some r)).mp ho with ⟨e, he, hscoreAll⟩
    have hscoreAny := scoreOneEntity_all_to_any hne hscoreAll
    have hrys : some r ∈ ys := (exMap_ok_mem_iff hany (some r)).mpr ⟨e, he, hscoreAny⟩
    have hrL : r ∈ ys.filterMap id := List.mem_filterMap.mpr ⟨some r, hrys, rfl⟩
    rcases searchEntities_ok_elim hanyR with ⟨ys2, hys2, hresAny⟩
    rw [hany] at hys2
    cases hys2
    subst hresAny
    simp only [sortScoredEntitiesDesc]
    rw [mem_take_sortB _ _ _ hlen]
    exact hrL

/-- Witness for the amended C7: the profile scenario `fixC7` and the
entity scenario `fixC7E`, both with keywords ["p", "q"] and limit 2. -/
theorem c7_amended_all_subset_any_witness :
    (profileMatches fixC7 ["p", "q"] none "any" = .ok [c7AnyRecord, c7AllRecord] ∧
      searchProfileByKeywords fixC7 ["p", "q"] none "all" 2 = .ok [c7AllRecord] ∧
      searchProfileByKeywords fixC7 ["p", "q"] none "any" 2 =
        .ok [c7AnyRecord, c7AllRecord] ∧
      c7AllRecord ∈ [c7AnyRecord, c7AllRecord]) ∧
    (exMap (scoreOneEntity ["p", "q"] "any"
        ((["all"] : List String).contains "all" ||
          (["all"] : List String).contains "name")
        ((["all"] : List String).contains "all" ||
          (["all"] : List String).contains "attributes"))
        (listEntities fixC7E none (some "active")) =
          .ok [some c7EAllRecord, some c7EAnyRecord] ∧
      searchEntitiesByKeywords fixC7E ["p", "q"] none ["all"] "all" 2 =
        .ok [c7EAllRecord] ∧
      searchEntitiesByKeywords fixC7E ["p", "q"] none ["all"] "any" 2 =
        .ok [c7EAnyRecord, c7EAllRecord] ∧
      c7EAllRecord ∈ [c7EAnyRecord, c7EAllRecord]) :=
  ⟨⟨by decide, by decide, by decide,
    (c7_amended_all_subset_any fixC7 ["p", "q"] none none ["all"] 2 (by decide)).1
      [c7AnyRecord, c7AllRecord] (by decide) (by decide) [c7AllRecord]
      [c7AnyRecord, c7AllRecord] (by decide) (by decide) c7AllRecord (by decide)⟩,
   ⟨by decide, by decide, by decide,
    (c7_amended_all_subset_any fixC7E ["p", "q"] none none ["all"] 2 (by decide)).2
      [some c7EAllRecord, some c7EAnyRecord] (by decide) (by decide)
      [c7EAllRecord] [c7EAnyRecord, c7EAllRecord] (by decide) (by decide)
      c7EAllRecord (by decide)⟩⟩

/-! ### The amended C6: the time interval is closed -/

/-- Claim C6, amended: when `searchEvents` is given a (parseable)
`timeRange`, both the legacy query mode and the keyword mode return
exactly the matching events whose timestamp lies in the **closed**
interval `[start, end]` — `timestamp BETWEEN ? AND ?` is inclusive at
both ends — provided the limit does not truncate the result.  Membership
is characterised against the stored rows: the user filter, the
soft-delete filter, the mode's own match condition, and
`start ≤ timestamp ≤ end` in SQLite TEXT order. -/
theorem c6_amended_interval_is_closed
    (s : State) (query eventType : Option String) (tr : String) (ks : List String)
    (limit : Nat) (now tz a b : Int)
    (htr : tr ≠ "") (hpr : parseTimeRange now tz tr = .ok (a, b)) :
    ((legacyRows s query eventType (some (a, b))).length ≤ limit →
      ∀ items, searchEvents s query none eventType (some tr) limit now tz =
          .ok (.plain items) →
        ∀ it, it ∈ items ↔ ∃ r, r ∈ s.events ∧ r.user_id = s.userId ∧
          r.deleted = false ∧ queryCond query r = true ∧ etCond eventType r = true ∧
          strLeB (msToIso a) r.timestamp = true ∧
          strLeB r.timestamp (msToIso b) = true ∧ it = eventRowToItem r) ∧
    (ks ≠ [] → ∀ L, kwScoredFull s ks eventType (some tr) now tz = .ok L →
      L.length ≤ limit →
      ∀ outs, searchEventsByKeywords s ks eventType (some tr) limit now tz =
          .ok (.scored outs) →
        ∀ it, it ∈ outs ↔ ∃ r, r ∈ s.events ∧ r.user_id = s.userId ∧
          r.deleted = false ∧ etCond eventType r = true ∧
          strLeB (msToIso a) r.timestamp = true ∧
          strLeB r.timestamp (msToIso b) = true ∧
          scoreOneEvent ks (eventRowToItem r) = .ok (some it)) := by
  have hres : resolveRange now tz (some tr) = .ok (some (a, b)) := by
    simp [resolveRange, htr, hpr, Except.map]
  constructor
  · intro hlen items heq it
    have heval : searchEvents s query none eventType (some tr) limit now tz =
        .ok (.plain (((sortEventsDesc (legacyRows s query eventType
          (some (a, b)))).take limit).map eventRowToItem)) := by
      unfold searchEvents
      rw [hres]
    rw [heval] at heq
    simp only [Except.ok.injEq, EventsResult.plain.injEq] at heq
    subst heq
    constructor
    · intro hit
      rcases List.mem_map.mp hit with ⟨r, hrtake, hfr⟩
      have hrrows : r ∈ legacyRows s query eventType (some (a, b)) := by
        have h1 := List.take_subset _ _ hrtake
        simpa only [sortEventsDesc, mem_sortB] using h1
      rcases List.mem_filter.mp hrrows with ⟨hre, hcond⟩
      simp only [tsBetween, Bool.and_eq_true, beq_iff_eq, Bool.not_eq_true'] at hcond
      obtain ⟨⟨⟨⟨hu, hd⟩, hq⟩, he⟩, h1, h2⟩ := hcond
      exact ⟨r, hre, hu, hd, hq, he, h1, h2, hfr.symm⟩
    · rintro ⟨r, hre, hu, hd, hq, he, h1, h2, hit⟩
      subst hit
      apply List.mem_map_of_mem
      have hmem : r ∈ legacyRows s query eventType (some (a, b)) := by
        apply List.mem_filter.mpr
        refine ⟨hre, ?_⟩
        simp [tsBetween, hu, hd, hq, he, h1, h2]
      rw [List.take_of_length_le]
      · simpa only [sortEventsDesc, mem_sortB] using hmem
      · simpa only [sortEventsDesc, length_sortB] using hlen
  · intro hks L hfull hlen outs houts it
    have heval : searchEventsByKeywords s ks eventType (some tr) limit now tz =
        .ok (.scored ((sortScoredEventsDesc L).take limit)) := by
      cases ks with
      | nil => exact absurd rfl hks
      | cons k t =>
        unfold searchEventsByKeywords
        rw [hfull]
        rfl
    rw [heval] at houts
    simp only [Except.ok.injEq, EventsResult.scored.injEq] at houts
    subst houts
    have hiter : it ∈ (sortScoredEventsDesc L).take limit ↔ it ∈ L := by
      simp only [sortScoredEventsDesc]
      exact mem_take_sortB _ _ _ hlen it
    rw [hiter]
    have hfull2 : ((exMap (scoreOneEvent ks)
        ((sortEventsDesc (kwBaseRows s eventType (some (a, b)))).map
          eventRowToItem)).map (fun l => l.filterMap id)) = .ok L := by
      have hk : kwScoredFull s ks eventType (some tr) now tz =
          ((exMap (scoreOneEvent ks)
            ((sortEventsDesc (kwBaseRows s eventType (some (a, b)))).map
              eventRowToItem)).map (fun l => l.filterMap id)) := by
        unfold kwScoredFull
        rw [hres]
      rw [← hk]
      exact hfull
    rcases exceptMap_ok hfull2 with ⟨ys, hys, hfm⟩
    subst hfm
    constructor
    · intro hitL
      rcases List.mem_filterMap.mp hitL with ⟨o, ho, hoeq⟩
      simp only [id] at hoeq
      subst hoeq
      rcases (exMap_ok_mem_iff hys (some it)).mp ho with ⟨e, hei, hsc⟩
      rcases List.mem_map.mp hei with ⟨r, hrsort, hfr⟩
      have hrrows : r ∈ kwBaseRows s eventType (some (a, b)) := by
        simpa only [sortEventsDesc, mem_sortB] using hrsort
      rcases List.mem_filter.mp hrrows with ⟨hre, hcond⟩
      simp only [tsBetween, Bool.and_eq_true, beq_iff_eq, Bool.not_eq_true'] at hcond
      obtain ⟨⟨⟨hu, hd⟩, he⟩, h1, h2⟩ := hcond
      refine ⟨r, hre, hu, hd, he, h1, h2, ?_⟩
      rw [hfr]
      exact hsc
    · rintro ⟨r, hre, hu, hd, he, h1, h2, hsc⟩
      apply List.mem_filterMap.mpr
      refine ⟨some it, ?_, rfl⟩
      apply (exMap_ok_mem_iff hys (some it)).mpr
      refine ⟨eventRowToItem r, ?_, hsc⟩
      apply List.mem_map_of_mem
      simp only [sortEventsDesc, mem_sortB]
      apply List.mem_filter.mpr
      refine ⟨hre, ?_⟩
      simp [tsBetween, hu, hd, he, h1, h2]

/-- Witness for the amended C6 over `fixC6` with range "last_week" at
`now = 0`: both mode characterisations instantiated. -/
theorem c6_amended_interval_is_closed_witness :
    (∀ it, it ∈ [c6Item] ↔ ∃ r, r ∈ fixC6.events ∧ r.user_id = fixC6.userId ∧
      r.deleted = false ∧ queryCond none r = true ∧ etCond none r = true ∧
      strLeB (msToIso (-604800000)) r.timestamp = true ∧
      strLeB r.timestamp (msToIso 0) = true ∧ it = eventRowToItem r) ∧
    (∀ it, it ∈ [c6Scored] ↔ ∃ r, r ∈ fixC6.events ∧ r.user_id = fixC6.userId ∧
      r.deleted = false ∧ etCond none r = true ∧
      strLeB (msToIso (-604800000)) r.timestamp = true ∧
      strLeB r.timestamp (msToIso 0) = true ∧
      scoreOneEvent ["walk"] (eventRowToItem r) = .ok (some it)) :=
  ⟨(c6_amended_interval_is_closed fixC6 none none "last_week" ["walk"] 20 0 0
      (-604800000) 0 (by decide) (by decide)).1 (by decide) [c6Item] (by decide),
   (c6_amended_interval_is_closed fixC6 none none "last_week" ["walk"] 20 0 0
      (-604800000) 0 (by decide) (by decide)).2 (by decide) [c6Scored] (by decide)
     (by decide) [c6Scored] (by decide)⟩

/-! ### The amended C8 -/

/-- A string matching the four-digit pattern has four characters. -/
theorem matchY_data {s : String} (h : matchY s = true) : s.data.length = 4 := by
  unfold matchY at h
  split at h
  · next a b c d heq => rw [heq]; rfl
  · cases h

/-- A string matching the `YYYY-MM` pattern has seven characters. -/
theorem matchYM_data {s : String} (h : matchYM s = true) : s.data.length = 7 := by
  unfold matchYM at h
  split at h
  · next a b c d e f g heq => rw [heq]; rfl
  · cases h

/-- `new Date(y, m - 1, 1)` is the first instant of the month the
spec-side normalization `jsNormMonth1` computes. -/
theorem mkJsDateMs_norm (tz y m : Int) :
    mkJsDateMs tz y (m - 1) 1 =
      civilMonthStartMs tz (jsNormMonth1 y m).1 (jsNormMonth1 y m).2 := by
  simp [mkJsDateMs, jsDateNormYM, jsNormMonth1, civilMonthStartMs, jsYearAdjust]

/-- `new Date(y, 0, 1)` is the first instant of January of the adjusted
year. -/
theorem mkJsDateMs_year (tz y : Int) :
    mkJsDateMs tz y 0 1 = civilMonthStartMs tz (jsYearAdjust y) 1 := by
  simp only [mkJsDateMs, jsDateNormYM, civilMonthStartMs, jsYearAdjust,
    show Int.fdiv 0 12 = 0 from by decide, show Int.fmod 0 12 = 0 from by decide,
    Int.add_zero, Int.zero_add]

/-- Claim C8, amended: `parseTimeRange` maps the three relative forms to
fixed 7/30/365-day offsets ending now; maps `YYYY-MM` and `YYYY` through
the JavaScript `Date` normalization (years 0–99 read as 1900–1999,
out-of-range months rolling into the adjacent year); and fails with
`Unsupported time range format` on every other string. -/
theorem c8_amended_parse_time_range (now tz : Int) (s : String) :
    (s = "last_week" → parseTimeRange now tz s = .ok (now - 604800000, now)) ∧
    (s = "last_month" → parseTimeRange now tz s = .ok (now - 2592000000, now)) ∧
    (s = "last_year" → parseTimeRange now tz s = .ok (now - 31536000000, now)) ∧
    (matchYM s = true →
      parseTimeRange now tz s =
        .ok (civilMonthStartMs tz (jsNormMonth1 (ymYear s) (ymMonth s)).1
               (jsNormMonth1 (ymYear s) (ymMonth s)).2,
             civilMonthStartMs tz (jsNormMonth1 (ymYear s) (ymMonth s + 1)).1
               (jsNormMonth1 (ymYear s) (ymMonth s + 1)).2)) ∧
    (matchY s = true →
      parseTimeRange now tz s =
        .ok (civilMonthStartMs tz (jsYearAdjust (yVal s)) 1,
             civilMonthStartMs tz (jsYearAdjust (yVal s + 1)) 1)) ∧
    (s ≠ "last_week" → s ≠ "last_month" → s ≠ "last_year" → matchYM s = false →
      matchY s = false →
      parseTimeRange now tz s = .error ("Unsupported time range format: " ++ s)) := by
  refine ⟨?_, ?_, ?_, ?_, ?_, ?_⟩
  · intro he; subst he
    unfold parseTimeRange
    rw [if_pos rfl]
    norm_num
  · intro he; subst he
    unfold parseTimeRange
    rw [if_neg (by decide), if_pos rfl]
    norm_num
  · intro he; subst he
    unfold parseTimeRange
    rw [if_neg (by decide), if_neg (by decide), if_pos rfl]
    norm_num
  · intro hym
    have h1 : s ≠ "last_week" := by
      intro he; rw [he] at hym; exact absurd hym (by decide)
    have h2 : s ≠ "last_month" := by
      intro he; rw [he] at hym; exact absurd hym (by decide)
    have h3 : s ≠ "last_year" := by
      intro he; rw [he] at hym; exact absurd hym (by decide)
    have e1 := mkJsDateMs_norm tz (ymYear s) (ymMonth s)
    have e2 := mkJsDateMs_norm tz (ymYear s) (ymMonth s + 1)
    simp only [Int.add_sub_cancel] at e2
    simp only [parseTimeRange, h1, h2, h3, hym, if_true, if_false, reduceIte,
      ite_true, ite_false]
    simp only [ymYear, ymMonth] at e1 e2
    rw [e1, e2]
    simp only [ymYear, ymMonth]
  · intro hy
    have h1 : s ≠ "last_week" := by
      intro he; rw [he] at hy; exact absurd hy (by decide)
    have h2 : s ≠ "last_month" := by
      intro he; rw [he] at hy; exact absurd hy (by decide)
    have h3 : s ≠ "last_year" := by
      intro he; rw [he] at hy; exact absurd hy (by decide)
    have hym : matchYM s = false := by
      cases hq : matchYM s
      · rfl
      · have l7 := matchYM_data hq
        have l4 := matchY_data hy
        omega
    have e1 := mkJsDateMs_year tz (yVal s)
    have e2 := mkJsDateMs_year tz (yVal s + 1)
    simp only [parseTimeRange, h1, h2, h3, hym, hy, if_true, if_false, reduceIte,
      ite_true, ite_false, Bool.false_eq_true]
    simp only [yVal] at e1 e2
    rw [e1, e2]
    simp only [yVal]
  · intro h1 h2 h3 hym hy
    simp [parseTimeRange, h1, h2, h3, hym, hy]

/-- Witness for the amended C8 at the spec's own scenario "2024-02":
the normalized bounds are the first instants of February and March
2024. -/
theorem c8_amended_parse_time_range_witness :
    parseTimeRange 0 0 "2024-02" =
      .ok (civilMonthStartMs 0 (jsNormMonth1 (ymYear "2024-02") (ymMonth "2024-02")).1
             (jsNormMonth1 (ymYear "2024-02") (ymMonth "2024-02")).2,
           civilMonthStartMs 0
             (jsNormMonth1 (ymYear "2024-02") (ymMonth "2024-02" + 1)).1
             (jsNormMonth1 (ymYear "2024-02") (ymMonth "2024-02" + 1)).2) ∧
    civilMonthStartMs 0 2024 2 = 1706745600000 ∧
    civilMonthStartMs 0 2024 3 = 1709251200000 ∧
    parseTimeRange 0 0 "2024-02" = .ok (1706745600000, 1709251200000) :=
  ⟨(c8_amended_parse_time_range 0 0 "2024-02").2.2.2.1 (by decide),
   by decide, by decide, by decide⟩

end Mnemosyne
